import Mathlib

/-!
Shallow embedding of the rodchenko marketplace application
(src/db.py, src/app.py, src/security.py) for checking its
natural-language specification.

The relational store is modelled as an explicit in-memory state
(`DBState`).  Collaborators that live outside the repository
(the DNS resolver, Python's `urllib.parse`, the `json` library,
`hashlib`/werkzeug hashing and the HTTP client) are passed in as
function parameters, mirroring the spec's "external interfaces"
section.  All repository logic is translated from the source.
-/

namespace Rodchenko

/-- Row of the `users` table (db.py: `init_db`). -/
structure UserRow where
  id : Nat
  username : String
  password : String
  balance : Int
  deriving DecidableEq, Repr

/-- Row of the `artworks` table (db.py: `init_db`). -/
structure ArtworkRow where
  id : Nat
  title : String
  data : String
  price : Int
  owner_id : Nat
  is_private : Nat
  signature : String
  deriving DecidableEq, Repr

/-- Row of the `transactions` table (db.py: `init_db`). -/
structure TransactionRow where
  buyer_id : Nat
  seller_id : Nat
  artwork_id : Nat
  amount : Int
  deriving DecidableEq, Repr

/-- Row of the `artwork_settings` table (db.py: `init_db`). -/
structure SettingsRow where
  artwork_id : Nat
  settings_data : String
  deriving DecidableEq, Repr

/-- The database state.  `nextId` models sqlite's AUTOINCREMENT row id
for the `artworks` table (`cursor.lastrowid` after an insert). -/
structure DBState where
  users : List UserRow
  artworks : List ArtworkRow
  transactions : List TransactionRow
  settings : List SettingsRow
  nextId : Nat
  deriving DecidableEq, Repr

/-- Lookup `SELECT ... FROM artworks WHERE id = ?` (first matching row). -/
def findArtwork (s : DBState) (aid : Nat) : Option ArtworkRow :=
  s.artworks.find? (fun a => a.id == aid)

/-- Lookup `SELECT ... FROM users WHERE id = ?` (first matching row). -/
def findUser (s : DBState) (uid : Nat) : Option UserRow :=
  s.users.find? (fun u => u.id == uid)

/-- Lookup `SELECT ... FROM users WHERE username = ?` (first matching row). -/
def findUserByName (s : DBState) (name : String) : Option UserRow :=
  s.users.find? (fun u => u.username == name)

/-- Embeds db.py `get_user_balance`: balance of the user, `0` when the
row is absent (`result[0] if result else 0`). -/
def get_user_balance (s : DBState) (uid : Nat) : Int :=
  match findUser s uid with
  | some u => u.balance
  | none => 0

/-- Embeds db.py `purchase_artwork`.  Returns the `(success, message)`
pair of the source together with the updated state; every failure path
leaves the state untouched (the source returns before any UPDATE). -/
def purchase_artwork (s : DBState) (buyer_id artwork_id : Nat) :
    (Bool × String) × DBState :=
  match findArtwork s artwork_id with
  | none => ((false, "Artwork not found"), s)
  | some art =>
    if art.owner_id == buyer_id then
      ((false, "You cannot buy your own artwork"), s)
    else
      match findUser s buyer_id with
      | none => ((false, "Insufficient balance"), s)
      | some buyer =>
        if buyer.balance < art.price then
          ((false, "Insufficient balance"), s)
        else
          let users1 := s.users.map (fun u =>
            if u.id == buyer_id then { u with balance := u.balance - art.price } else u)
          let users2 := users1.map (fun u =>
            if u.id == art.owner_id then { u with balance := u.balance + art.price } else u)
          let artworks2 := s.artworks.map (fun a =>
            if a.id == artwork_id then { a with owner_id := buyer_id } else a)
          ((true, "Purchase successful"),
            { s with users := users2, artworks := artworks2,
                     transactions :=
                       s.transactions ++ [⟨buyer_id, art.owner_id, artwork_id, art.price⟩] })

/-- Result of db.py `authenticate_user` on success (the dict
`\x7b"id": ..., "username": ..., "balance": ...\x7d`). -/
structure AuthUser where
  id : Nat
  username : String
  balance : Int
  deriving DecidableEq, Repr

/-- Embeds db.py `authenticate_user`.  `hmd5` models
`hashlib.md5(...).hexdigest()`, `genHash` models werkzeug's
`generate_password_hash` and `checkHash` models `check_password_hash`;
all three are external collaborators.  The source takes the werkzeug
branch when the stored credential is non-empty and contains a colon
(`if stored and ":" in stored`); otherwise it compares against the
legacy md5 digest and, on match, rewrites the stored credential with
`generate_password_hash` before returning. -/
def authenticate_user (hmd5 genHash : String → String)
    (checkHash : String → String → Bool)
    (s : DBState) (username password : String) : Option AuthUser × DBState :=
  match findUserByName s username with
  | none => (none, s)
  | some u =>
    if u.password ≠ "" ∧ u.password.data.contains ':' then
      (if checkHash u.password password then some ⟨u.id, u.username, u.balance⟩ else none, s)
    else
      if u.password == hmd5 password then
        (some ⟨u.id, u.username, u.balance⟩,
          { s with users := s.users.map (fun w =>
              if w.id == u.id then { w with password := genHash password } else w) })
      else
        (none, s)

/-! ## JSON values and the settings codec (security.py, app.py) -/

/-- JSON values as produced by Python's `json.loads` (numbers restricted
to integers; no float payload appears in the modelled code paths). -/
inductive JsonValue where
  | null : JsonValue
  | bool : Bool → JsonValue
  | num : Int → JsonValue
  | str : String → JsonValue
  | arr : List JsonValue → JsonValue
  | obj : List (String × JsonValue) → JsonValue
  deriving Repr

/-- Character escaping of `json.dumps` for the characters exercised here
(quote and backslash; other characters pass through unchanged). -/
def escChar (c : Char) : List Char :=
  if c = '"' then ['\\', '"']
  else if c = '\\' then ['\\', '\\']
  else [c]

/-- String escaping of `json.dumps`. -/
def escapeStr (s : String) : String :=
  String.mk (s.data.flatMap escChar)

mutual

/-- Embeds Python's `json.dumps` with its default separators
(", " between items, ": " between a key and its value). -/
def dumps : JsonValue → String
  | .null => "null"
  | .bool true => "true"
  | .bool false => "false"
  | .num n => toString n
  | .str s => "\"" ++ escapeStr s ++ "\""
  | .arr xs => "[" ++ dumpsList xs ++ "]"
  | .obj fs => "\x7b" ++ dumpsObj fs ++ "\x7d"

/-- Serialization of an array body, items separated by ", ". -/
def dumpsList : List JsonValue → String
  | [] => ""
  | [x] => dumps x
  | x :: y :: rest => dumps x ++ ", " ++ dumpsList (y :: rest)

/-- Serialization of an object body, entries separated by ", ". -/
def dumpsObj : List (String × JsonValue) → String
  | [] => ""
  | [(k, v)] => "\"" ++ escapeStr k ++ "\": " ++ dumps v
  | (k, v) :: p :: rest =>
    "\"" ++ escapeStr k ++ "\": " ++ dumps v ++ ", " ++ dumpsObj (p :: rest)

end

/-- Embeds the `isinstance(obj, (dict, list, str, int, float, bool)) or
obj is None` filter of security.py `load_artwork_settings`; every value
`json.loads` can return satisfies it. -/
def json_type_ok : JsonValue → Bool
  | .obj _ => true
  | .arr _ => true
  | .str _ => true
  | .num _ => true
  | .bool _ => true
  | .null => true

/-- Embeds Python string slicing `s[:n]`: the first n characters
(the kernel-reducible counterpart of `String.take`). -/
def pyTake (s : String) (n : Nat) : String :=
  String.mk (s.data.take n)

/-- Length cap of security.py (`MAX_DESCRIPTION_LEN`). -/
def MAX_DESCRIPTION_LEN : Nat := 2000

/-- Embeds security.py `load_artwork_settings` on string input (the only
input shape reachable from the DB read; the dict/list passthrough branch
of the source applies to non-string arguments only).  `loads` models
Python's `json.loads`, returning `none` when it raises. -/
def load_artwork_settings (loads : String → Option JsonValue)
    (settings_data : String) : Option JsonValue :=
  if settings_data = "" then none
  else
    match loads settings_data with
    | some obj =>
      if json_type_ok obj then some obj
      else some (.obj [("description", .str (pyTake settings_data MAX_DESCRIPTION_LEN))])
    | none => some (.obj [("description", .str (pyTake settings_data MAX_DESCRIPTION_LEN))])

/-- Embeds security.py `save_artwork_description`: plain text bounded to
the length cap, `none` for empty input. -/
def save_artwork_description (description : String) : Option String :=
  if description = "" then none
  else some (pyTake description MAX_DESCRIPTION_LEN)

/-- The form fields written by the settings-save path
(app.py `artwork_settings`, POST branch). -/
structure SettingsForm where
  colors : String
  animation : Bool
  public : Bool
  deriving DecidableEq, Repr

/-- The dict `settings_to_save` built by app.py `artwork_settings`. -/
def settingsJson (f : SettingsForm) : JsonValue :=
  .obj [("colors", .str f.colors), ("animation", .bool f.animation),
        ("public", .bool f.public)]

/-- Embeds the encode side of the settings codec:
`json.dumps(settings_to_save)` in app.py `artwork_settings`. -/
def encodeSettings (f : SettingsForm) : String :=
  dumps (settingsJson f)

/-- Embeds db.py `save_artwork_settings`: delete-then-insert of the
settings row for the artwork. -/
def save_artwork_settings (s : DBState) (artwork_id : Nat)
    (settings_data : String) : DBState :=
  { s with settings :=
      (s.settings.filter (fun r => !(r.artwork_id == artwork_id))) ++
        [⟨artwork_id, settings_data⟩] }

/-! ## URL safety classifier (security.py) -/

/-- Classification attributes of one IP address, as exposed by Python's
`ipaddress` library (an external collaborator); `ipstr` is `str(ip)`. -/
structure IPAddr where
  ipstr : String
  is_loopback : Bool
  is_private : Bool
  is_link_local : Bool
  is_unspecified : Bool
  is_multicast : Bool
  is_reserved : Bool
  deriving DecidableEq, Repr

/-- Embeds security.py `_is_public_ip`. -/
def is_public_ip (ip : IPAddr) : Bool :=
  !(ip.is_loopback || ip.is_private || ip.is_link_local ||
    ip.is_unspecified || ip.is_multicast || ip.is_reserved)

/-- Scheme and hostname of a parsed URL, as returned by
`urllib.parse.urlparse` (hostname already lowercased by urllib). -/
structure ParsedURL where
  scheme : String
  hostname : Option String
  deriving DecidableEq, Repr

/-- Embeds Python `str.lower` character-wise (the kernel-reducible
counterpart of `String.toLower`). -/
def pyLower (s : String) : String :=
  String.mk (s.data.map Char.toLower)

/-- Least element of a list of strings: `sorted(addrs)[0]` of the
source ("" for the empty list, which the source never reaches). -/
def minAddr : List String → String
  | [] => ""
  | a :: rest => rest.foldl (fun m x => if x < m then x else m) a

/-- One iteration of the resolved-address loop of `is_safe_url`:
`ipaddress.ip_address(ip_str)` followed by `_is_public_ip`.  A string
that fails to parse (`none`) raises ValueError in the source, which the
enclosing `except` turns into the same `(False, "403")` outcome. -/
def addrOk (ipOf : String → Option IPAddr) (a : String) : Bool :=
  match ipOf a with
  | some ip => is_public_ip ip
  | none => false

/-- Embeds security.py `is_safe_url`.  `urlparseF` models
`urllib.parse.urlparse`, `ipOf` models `ipaddress.ip_address` (`none`
when it raises ValueError) and `resolve` models the full A/AAAA address
set collected from `socket.getaddrinfo`.  The Python `set()` only
removes duplicate strings, which changes none of the emptiness test,
the all-addresses check, or the least address, so the resolved
addresses are kept as the returned list. -/
def is_safe_url (urlparseF : String → ParsedURL)
    (ipOf : String → Option IPAddr) (resolve : String → List String)
    (url : String) : Bool × String :=
  let parsed := urlparseF url
  if ¬(parsed.scheme = "http" ∨ parsed.scheme = "https") then (false, "403")
  else
    match parsed.hostname with
    | none => (false, "403")
    | some hostname =>
      if hostname = "" then (false, "403")
      else
        let hn := pyLower hostname
        if hn = "localhost" ∨ hn = "localhost.localdomain" then (false, "403")
        else
          match ipOf hostname with
          | some ip =>
            if ¬is_public_ip ip then (false, "403") else (true, ip.ipstr)
          | none =>
            let addrs := resolve hostname
            if addrs.isEmpty then (false, "403")
            else if addrs.all (addrOk ipOf) then (true, minAddr addrs)
            else (false, "403")

/-! ## Artwork creation and the import pipeline (db.py, app.py) -/

/-- Decimal value of a list of digit characters. -/
def digitsToNat (l : List Char) : Nat :=
  l.foldl (fun n c => n * 10 + (c.toNat - 48)) 0

/-- Decimal digits of a string read as a natural number
(the value of Python `int(s)` on an all-digit string). -/
def strToNat (s : String) : Nat :=
  digitsToNat s.data

/-- Embeds Python `str.isdigit` restricted to ASCII digits: true for a
non-empty string of digits only. -/
def isDigitStr (s : String) : Bool :=
  !s.data.isEmpty && s.data.all Char.isDigit

/-- Embeds Python `int(s)` on stripped form input: an optional sign
followed by digits; `none` models the ValueError branch. -/
def pyInt (s : String) : Option Int :=
  match s.data with
  | [] => none
  | c :: rest =>
    if c = '-' then
      if rest ≠ [] ∧ rest.all Char.isDigit then some (-(digitsToNat rest : Int)) else none
    else if c = '+' then
      if rest ≠ [] ∧ rest.all Char.isDigit then some ((digitsToNat rest : Int)) else none
    else if (c :: rest).all Char.isDigit then some ((digitsToNat (c :: rest) : Int)) else none

/-- Embeds db.py `create_artwork_record`: insert the artwork row, then
optionally the settings row; returns `cursor.lastrowid` (modelled by
`nextId`) and the new state. -/
def create_artwork_record (s : DBState) (owner_id : Nat) (title data : String)
    (price : Int) (is_private : Nat) (signature : String)
    (settings_data : Option String) : Nat × DBState :=
  let aid := s.nextId
  let s1 := { s with
    artworks := s.artworks ++ [⟨aid, title, data, price, owner_id, is_private, signature⟩],
    nextId := s.nextId + 1 }
  match settings_data with
  | some sd => (aid, { s1 with settings := s1.settings ++ [⟨aid, sd⟩] })
  | none => (aid, s1)

/-- Embeds the POST branch of app.py `create_artwork` (after form
stripping): parse the price with `int`, require non-empty title and
data, then insert via `create_artwork_record` with the description
bounded by `save_artwork_description`.  Returns the user-facing error
message (if any) and the resulting state. -/
def create_artwork (s : DBState) (user_id : Nat)
    (title data price signature description : String) (is_private : Nat) :
    Option String × DBState :=
  match pyInt price with
  | none => (some "Цена должна быть числом", s)
  | some price_int =>
    if title = "" ∨ data = "" then (some "Заполните все поля", s)
    else
      let settings_data := save_artwork_description description
      let r := create_artwork_record s user_id title data price_int is_private
        signature settings_data
      (none, r.2)

/-- Embeds the POST branch of app.py `edit_artwork` after the ownership
check: db.py `update_artwork` rewrites the row in place. -/
def update_artwork (s : DBState) (artwork_id : Nat) (title data : String)
    (price : Int) (is_private : Nat) (signature : String) : DBState :=
  { s with artworks := s.artworks.map (fun a =>
      if a.id == artwork_id then
        { a with title := title, data := data, price := price,
                 is_private := is_private, signature := signature }
      else a) }

/-- The fields of a `requests` response consumed by app.py
`import_artwork`: status code, the Location header (absent = `none`),
the final URL `resp.url`, and the body text. -/
structure HttpResponse where
  status_code : Nat
  location : Option String
  url : String
  text : String
  deriving DecidableEq, Repr

/-- The template parameters produced by app.py `import_artwork`. -/
structure ImportResult where
  preview_content : Option String
  error : Option String
  success : Option String
  fetched_url : Option String
  deriving DecidableEq, Repr

/-- Embeds `int(price) if str(price).isdigit() else 100` with the
default `data.get('price', 100)` of app.py `import_artwork`:
`str` of a negative int, bool, null, array or object is never all
digits, so those fall back to 100. -/
def importPrice : Option JsonValue → Int
  | some (.num n) => if isDigitStr (toString n) then n else 100
  | some (.str t) => if isDigitStr t then (strToNat t : Int) else 100
  | some _ => 100
  | none => 100

/-- Embeds `data.get('title', 'Импортированная композиция')`; a
non-string JSON title is modelled by its serialization (the modelled
paths only exercise string titles). -/
def titleOf : Option JsonValue → String
  | some (.str t) => t
  | some v => dumps v
  | none => "Импортированная композиция"

/-- Python dict lookup on a parsed JSON object. -/
def jsonLookup (fields : List (String × JsonValue)) (k : String) :
    Option JsonValue :=
  (fields.find? (fun p => p.1 == k)).map (fun p => p.2)

/-- Embeds the POST branch of app.py `import_artwork`.  `urljoin`
models `urllib.parse.urljoin`, `parseJson` models `resp.json()`
(`none` when it raises) and `httpGet` models `requests.get` with
`allow_redirects=False` (`Except.error` carries the exception
message).  The order of checks follows the source: empty URL falls
through, unsafe URL, request exception, 3xx handling (missing
Location, unsafe resolved target, then the unconditional refusal to
follow), non-200 status, unsafe final URL, then the JSON parse with
artwork creation on a dict containing a "shapes" key.  The preview is
the body truncated to 10000 characters, while `resp.json()` is applied
to the untruncated body. -/
def import_artwork (urlparseF : String → ParsedURL)
    (ipOf : String → Option IPAddr) (resolve : String → List String)
    (urljoin : String → String → String)
    (parseJson : String → Option JsonValue)
    (httpGet : String → Except String HttpResponse)
    (s : DBState) (user_id : Nat) (artwork_url : String) :
    ImportResult × DBState :=
  if artwork_url = "" then (⟨none, none, none, none⟩, s)
  else if ¬(is_safe_url urlparseF ipOf resolve artwork_url).1 then
    (⟨none, some "Небезопасный URL", none, none⟩, s)
  else
    match httpGet artwork_url with
    | .error e => (⟨none, some ("Ошибка запроса: " ++ e), none, none⟩, s)
    | .ok resp =>
      if 300 ≤ resp.status_code ∧ resp.status_code < 400 then
        let loc := resp.location.getD ""
        if loc = "" then (⟨none, some "Некорректный редирект", none, none⟩, s)
        else
          let next_url := urljoin artwork_url loc
          if ¬(is_safe_url urlparseF ipOf resolve next_url).1 then
            (⟨none, some "Небезопасный редирект", none, none⟩, s)
          else (⟨none, some "Редиректы запрещены", none, none⟩, s)
      else if resp.status_code ≠ 200 then
        (⟨none, some ("Ошибка загрузки (" ++ toString resp.status_code ++ ")"),
          none, none⟩, s)
      else if ¬(is_safe_url urlparseF ipOf resolve resp.url).1 then
        (⟨none, some "Небезопасный URL ответа", none, none⟩, s)
      else
        let preview := pyTake resp.text 10000
        match parseJson resp.text with
        | none => (⟨some preview, some "Ответ не является JSON", none, some resp.url⟩, s)
        | some (.obj fields) =>
          match jsonLookup fields "shapes" with
          | some shapesVal =>
            let title := titleOf (jsonLookup fields "title")
            let shapes_json := dumps shapesVal
            let price := importPrice (jsonLookup fields "price")
            let r := create_artwork_record s user_id title shapes_json price 0
              "imported" none
            (⟨some preview, none, some ("Импортировано! ID: " ++ toString r.1),
              some resp.url⟩, r.2)
          | none =>
            (⟨some preview, some "Неверный формат JSON", none, some resp.url⟩, s)
        | some _ =>
          (⟨some preview, some "Неверный формат JSON", none, some resp.url⟩, s)

/-! ## Helper lemmas -/

/-- An update that never changes the tested field commutes with
`List.find?`: the SQL `UPDATE ... WHERE` of the source is a `map` that
preserves row identities. -/
lemma find?_map_pres {α : Type} (f : α → α) (p : α → Bool)
    (hp : ∀ a, p (f a) = p a) (l : List α) :
    (l.map f).find? p = (l.find? p).map f := by
  induction l with
  | nil => rfl
  | cons a t ih =>
    by_cases h : p a = true
    · have h' : p (f a) = true := by rw [hp]; exact h
      rw [List.map_cons, List.find?_cons_of_pos _ h', List.find?_cons_of_pos _ h]
      rfl
    · have h' : ¬ p (f a) = true := by rw [hp]; exact h
      rw [List.map_cons, List.find?_cons_of_neg _ h', List.find?_cons_of_neg _ h, ih]

/-- Shape of a successful purchase: once every precondition holds, the
source performs exactly the two balance updates, the ownership
reassignment and the transaction insert. -/
lemma purchase_ok_shape (s : DBState) (bid aid : Nat) (art : ArtworkRow)
    (buyer : UserRow)
    (hart : findArtwork s aid = some art)
    (hown : (art.owner_id == bid) = false)
    (hbuyer : findUser s bid = some buyer)
    (hbal : ¬(buyer.balance < art.price)) :
    purchase_artwork s bid aid =
      ((true, "Purchase successful"),
       { s with
         users := (s.users.map (fun u =>
             if u.id == bid then { u with balance := u.balance - art.price } else u)).map
           (fun u =>
             if u.id == art.owner_id then { u with balance := u.balance + art.price } else u),
         artworks := s.artworks.map (fun a =>
             if a.id == aid then { a with owner_id := bid } else a),
         transactions := s.transactions ++ [⟨bid, art.owner_id, aid, art.price⟩] }) := by
  simp [purchase_artwork, hart, hown, hbuyer, hbal]

/-! ## Claims about the Ledger (purchase) -/

/-- C1: every successful `purchase_artwork(buyer, artwork)` decreases the
buyer's balance by exactly the artwork's price, increases the current
owner's (seller's) balance by exactly that price, makes the buyer the
artwork's owner, and appends exactly one transaction record with the
matching buyer/seller/artwork/amount fields; the sum of the buyer's and
seller's balances is unchanged.  Stated for a well-formed state in which
the artwork's owner row exists in the user table. -/
theorem purchase_success_ledger (s : DBState) (bid aid : Nat)
    (art : ArtworkRow) (seller : UserRow)
    (hart : findArtwork s aid = some art)
    (hsell : findUser s art.owner_id = some seller)
    (hok : (purchase_artwork s bid aid).1.1 = true) :
    get_user_balance (purchase_artwork s bid aid).2 bid =
      get_user_balance s bid - art.price ∧
    get_user_balance (purchase_artwork s bid aid).2 art.owner_id =
      get_user_balance s art.owner_id + art.price ∧
    findArtwork (purchase_artwork s bid aid).2 aid =
      some { art with owner_id := bid } ∧
    (purchase_artwork s bid aid).2.transactions =
      s.transactions ++ [⟨bid, art.owner_id, aid, art.price⟩] ∧
    get_user_balance (purchase_artwork s bid aid).2 bid +
      get_user_balance (purchase_artwork s bid aid).2 art.owner_id =
      get_user_balance s bid + get_user_balance s art.owner_id := by
  have hown : (art.owner_id == bid) = false := by
    cases hc : (art.owner_id == bid) with
    | false => rfl
    | true =>
      exfalso
      unfold purchase_artwork at hok
      rw [hart] at hok
      simp [hc] at hok
  obtain ⟨buyer, hbuyer⟩ : ∃ b, findUser s bid = some b := by
    cases hb : findUser s bid with
    | none =>
      exfalso
      unfold purchase_artwork at hok
      rw [hart] at hok
      simp [hown, hb] at hok
    | some b => exact ⟨b, rfl⟩
  have hbal : ¬(buyer.balance < art.price) := by
    intro h
    unfold purchase_artwork at hok
    rw [hart] at hok
    simp [hown, hbuyer, h] at hok
  have hne : art.owner_id ≠ bid := by simpa using hown
  have hne' : bid ≠ art.owner_id := Ne.symm hne
  have hbid : buyer.id = bid := by
    have := List.find?_some hbuyer
    simpa using this
  have hsid : seller.id = art.owner_id := by
    have := List.find?_some hsell
    simpa using this
  have haid : art.id = aid := by
    have := List.find?_some hart
    simpa using this
  have hshape := purchase_ok_shape s bid aid art buyer hart hown hbuyer hbal
  rw [hshape]
  dsimp only
  have hpres : ∀ u : UserRow,
      (((fun u : UserRow =>
          if u.id == art.owner_id then { u with balance := u.balance + art.price } else u) ∘
        (fun u : UserRow =>
          if u.id == bid then { u with balance := u.balance - art.price } else u)) u).id
        = u.id := by
    intro u
    by_cases h1 : u.id == bid <;> by_cases h2 : u.id == art.owner_id <;>
      simp [Function.comp, h1, h2]
  have husers : ∀ uid : Nat,
      findUser
        { s with
          users := (s.users.map (fun u =>
              if u.id == bid then { u with balance := u.balance - art.price } else u)).map
            (fun u =>
              if u.id == art.owner_id then { u with balance := u.balance + art.price } else u),
          artworks := s.artworks.map (fun a =>
              if a.id == aid then { a with owner_id := bid } else a),
          transactions := s.transactions ++ [⟨bid, art.owner_id, aid, art.price⟩] } uid
      = (findUser s uid).map
          ((fun u : UserRow =>
              if u.id == art.owner_id then { u with balance := u.balance + art.price } else u) ∘
           (fun u : UserRow =>
              if u.id == bid then { u with balance := u.balance - art.price } else u)) := by
    intro uid
    show ((s.users.map _).map _).find? _ = _
    rw [List.map_map, find?_map_pres _ _ (fun u => by rw [hpres u])]
    rfl
  have hbuyer' : get_user_balance s bid = buyer.balance := by
    unfold get_user_balance
    rw [hbuyer]
  have hseller' : get_user_balance s art.owner_id = seller.balance := by
    unfold get_user_balance
    rw [hsell]
  have hb2 : get_user_balance
      { s with
        users := (s.users.map (fun u =>
            if u.id == bid then { u with balance := u.balance - art.price } else u)).map
          (fun u =>
            if u.id == art.owner_id then { u with balance := u.balance + art.price } else u),
        artworks := s.artworks.map (fun a =>
            if a.id == aid then { a with owner_id := bid } else a),
        transactions := s.transactions ++ [⟨bid, art.owner_id, aid, art.price⟩] } bid
      = buyer.balance - art.price := by
    unfold get_user_balance
    rw [husers bid, hbuyer]
    simp [Function.comp, hbid, hne']
  have hs2 : get_user_balance
      { s with
        users := (s.users.map (fun u =>
            if u.id == bid then { u with balance := u.balance - art.price } else u)).map
          (fun u =>
            if u.id == art.owner_id then { u with balance := u.balance + art.price } else u),
        artworks := s.artworks.map (fun a =>
            if a.id == aid then { a with owner_id := bid } else a),
        transactions := s.transactions ++ [⟨bid, art.owner_id, aid, art.price⟩] } art.owner_id
      = seller.balance + art.price := by
    unfold get_user_balance
    rw [husers art.owner_id, hsell]
    simp [Function.comp, hsid, hne]
  have hart2 : findArtwork
      { s with
        users := (s.users.map (fun u =>
            if u.id == bid then { u with balance := u.balance - art.price } else u)).map
          (fun u =>
            if u.id == art.owner_id then { u with balance := u.balance + art.price } else u),
        artworks := s.artworks.map (fun a =>
            if a.id == aid then { a with owner_id := bid } else a),
        transactions := s.transactions ++ [⟨bid, art.owner_id, aid, art.price⟩] } aid
      = some { art with owner_id := bid } := by
    show (s.artworks.map _).find? _ = _
    rw [find?_map_pres _ _ (fun a => by by_cases h : a.id == aid <;> simp [h])]
    show (findArtwork s aid).map _ = _
    rw [hart]
    simp [haid]
  refine ⟨?_, ?_, hart2, rfl, ?_⟩
  · rw [hb2, hbuyer']
  · rw [hs2, hseller']
  · rw [hb2, hs2, hbuyer', hseller']
    ring

/-- Concrete state used by the failure-path witnesses: alice owns an
artwork priced 500; bob has only 3 units of balance. -/
def exPoor : DBState :=
  { users := [⟨1, "alice", "", 1000⟩, ⟨2, "bob", "", 3⟩],
    artworks := [⟨10, "t", "d", 500, 1, 0, ""⟩],
    transactions := [], settings := [], nextId := 11 }

/-- Concrete state used by the success-path witnesses: alice owns an
artwork priced 200; bob has 300 units of balance. -/
def exRich : DBState :=
  { users := [⟨1, "alice", "", 1000⟩, ⟨2, "bob", "", 300⟩],
    artworks := [⟨10, "t", "d", 200, 1, 0, ""⟩],
    transactions := [], settings := [], nextId := 11 }

/-- Witness for the C1 theorem at a concrete successful purchase. -/
theorem purchase_success_ledger_witness :
    get_user_balance (purchase_artwork exRich 2 10).2 2 =
      get_user_balance exRich 2 - 200 ∧
    get_user_balance (purchase_artwork exRich 2 10).2 1 =
      get_user_balance exRich 1 + 200 ∧
    findArtwork (purchase_artwork exRich 2 10).2 10 =
      some ⟨10, "t", "d", 200, 2, 0, ""⟩ ∧
    (purchase_artwork exRich 2 10).2.transactions = [⟨2, 1, 10, 200⟩] ∧
    get_user_balance (purchase_artwork exRich 2 10).2 2 +
      get_user_balance (purchase_artwork exRich 2 10).2 1 =
      get_user_balance exRich 2 + get_user_balance exRich 1 := by
  have h := purchase_success_ledger exRich 2 10 ⟨10, "t", "d", 200, 1, 0, ""⟩
    ⟨1, "alice", "", 1000⟩ (by decide) (by decide) (by decide)
  exact h

/-- C2: every precondition violation of `purchase_artwork` fails with
its own distinct reason — missing artwork, self-purchase (regardless of
the buyer's balance), insufficient balance — and in each case the whole
state (balances, ownership, transactions) is returned unchanged; the
three reasons are pairwise distinct. -/
theorem purchase_failure_cases (s : DBState) (bid aid : Nat) :
    (findArtwork s aid = none →
      purchase_artwork s bid aid = ((false, "Artwork not found"), s)) ∧
    (∀ art, findArtwork s aid = some art → art.owner_id = bid →
      purchase_artwork s bid aid = ((false, "You cannot buy your own artwork"), s)) ∧
    (∀ art buyer, findArtwork s aid = some art → art.owner_id ≠ bid →
      findUser s bid = some buyer → buyer.balance < art.price →
      purchase_artwork s bid aid = ((false, "Insufficient balance"), s)) ∧
    (("Artwork not found" : String) ≠ "You cannot buy your own artwork" ∧
     ("Artwork not found" : String) ≠ "Insufficient balance" ∧
     ("You cannot buy your own artwork" : String) ≠ "Insufficient balance") := by
  refine ⟨?_, ?_, ?_, by decide, by decide, by decide⟩
  · intro h
    simp [purchase_artwork, h]
  · intro art h hown
    simp [purchase_artwork, h, hown]
  · intro art buyer h hown hb hbal
    have hown' : (art.owner_id == bid) = false := by simpa using hown
    simp [purchase_artwork, h, hown', hb, hbal]

/-- Witness for the C2 theorem: all three failure reasons observed on
concrete states, each leaving the state unchanged. -/
theorem purchase_failure_cases_witness :
    purchase_artwork exPoor 2 99 = ((false, "Artwork not found"), exPoor) ∧
    purchase_artwork exPoor 1 10 = ((false, "You cannot buy your own artwork"), exPoor) ∧
    purchase_artwork exPoor 2 10 = ((false, "Insufficient balance"), exPoor) :=
  ⟨(purchase_failure_cases exPoor 2 99).1 (by decide),
   (purchase_failure_cases exPoor 1 10).2.1 ⟨10, "t", "d", 500, 1, 0, ""⟩
     (by decide) rfl,
   (purchase_failure_cases exPoor 2 10).2.2.1 ⟨10, "t", "d", 500, 1, 0, ""⟩
     ⟨2, "bob", "", 3⟩ (by decide) (by decide) (by decide) (by decide)⟩

/-- C10: when the artwork exists and is not owned by the buyer but the
buyer id has no row in the user store, `purchase_artwork` fails with the
insufficient-balance reason (not a distinct user-not-found error) and
the state is returned unchanged. -/
theorem purchase_missing_buyer (s : DBState) (bid aid : Nat) (art : ArtworkRow)
    (hart : findArtwork s aid = some art) (hown : art.owner_id ≠ bid)
    (hbuyer : findUser s bid = none) :
    purchase_artwork s bid aid = ((false, "Insufficient balance"), s) := by
  have hown' : (art.owner_id == bid) = false := by simpa using hown
  simp [purchase_artwork, hart, hown', hbuyer]

/-- Witness for the C10 theorem: buyer id 7 has no user row. -/
theorem purchase_missing_buyer_witness :
    purchase_artwork exPoor 7 10 = ((false, "Insufficient balance"), exPoor) :=
  purchase_missing_buyer exPoor 7 10 ⟨10, "t", "d", 500, 1, 0, ""⟩
    (by decide) (by decide) (by decide)

/-! ## Claims about the Credential Store -/

/-- C6: when the stored credential is a legacy md5 digest of the
supplied password, `authenticate_user` succeeds and synchronously
rewrites the stored credential with `generate_password_hash` before
returning, so that a second call with the same password finds a
current-scheme credential (one containing the scheme-marker colon),
verifies it through `check_password_hash`, succeeds again and performs
no further write.  The hypotheses record the collaborator facts: an md5
hex digest is non-empty and colon-free, a werkzeug hash is non-empty
and contains a colon, and `check_password_hash` accepts the hash of the
same password. -/
theorem legacy_login_upgrade (hmd5 genHash : String → String)
    (checkHash : String → String → Bool)
    (s : DBState) (username password : String) (u : UserRow)
    (hu : findUserByName s username = some u)
    (hleg : u.password = hmd5 password)
    (hnc : (hmd5 password).data.contains ':' = false)
    (hgc : (genHash password).data.contains ':' = true)
    (hgne : genHash password ≠ "")
    (hchk : checkHash (genHash password) password = true) :
    (authenticate_user hmd5 genHash checkHash s username password).1 =
      some ⟨u.id, u.username, u.balance⟩ ∧
    (∃ u', findUserByName
        (authenticate_user hmd5 genHash checkHash s username password).2 username
        = some u' ∧
      u'.password = genHash password ∧
      u'.password.data.contains ':' = true ∧
      (authenticate_user hmd5 genHash checkHash
        (authenticate_user hmd5 genHash checkHash s username password).2
        username password).1 = some ⟨u.id, u.username, u.balance⟩ ∧
      (authenticate_user hmd5 genHash checkHash
        (authenticate_user hmd5 genHash checkHash s username password).2
        username password).2 =
        (authenticate_user hmd5 genHash checkHash s username password).2) := by
  have hcond : ¬(u.password ≠ "" ∧ u.password.data.contains ':') := by
    intro hc
    rw [hleg, hnc] at hc
    exact absurd hc.2 (by simp)
  have h1 : authenticate_user hmd5 genHash checkHash s username password =
      (some ⟨u.id, u.username, u.balance⟩,
        { s with users := s.users.map (fun w =>
            if w.id == u.id then { w with password := genHash password } else w) }) := by
    unfold authenticate_user
    rw [hu]
    dsimp only
    rw [if_neg hcond,
        if_pos (show (u.password == hmd5 password) = true by simp [hleg])]
  have hfind2 : findUserByName
      { s with users := s.users.map (fun w =>
          if w.id == u.id then { w with password := genHash password } else w) }
      username = some { u with password := genHash password } := by
    show (s.users.map _).find? _ = _
    rw [find?_map_pres _ _ (fun w => by by_cases h : w.id == u.id <;> simp [h])]
    show (findUserByName s username).map _ = _
    rw [hu]
    simp
  have h2 : authenticate_user hmd5 genHash checkHash
      { s with users := s.users.map (fun w =>
          if w.id == u.id then { w with password := genHash password } else w) }
      username password =
      (some ⟨u.id, u.username, u.balance⟩,
        { s with users := s.users.map (fun w =>
            if w.id == u.id then { w with password := genHash password } else w) }) := by
    unfold authenticate_user
    rw [hfind2]
    dsimp only
    rw [if_pos (show genHash password ≠ "" ∧ (genHash password).data.contains ':'
          from ⟨hgne, hgc⟩),
        if_pos hchk]
  rw [h1]
  refine ⟨rfl, { u with password := genHash password }, ?_, rfl, hgc, ?_, ?_⟩
  · simpa using hfind2
  · rw [h2]
  · rw [h2]

/-- Concrete md5 stand-in for the C6 witness. -/
def hmd5W : String → String := fun p => if p = "pw" then "ab12cd34" else "ffff"

/-- Concrete werkzeug-hash stand-in for the C6 witness. -/
def genHashW : String → String := fun p => "pbkdf2:sha256:" ++ p

/-- Concrete werkzeug-check stand-in for the C6 witness. -/
def checkHashW : String → String → Bool := fun stored p =>
  stored == "pbkdf2:sha256:" ++ p

/-- Concrete state for the C6 witness: carol's stored credential is the
legacy digest of "pw". -/
def exLegacy : DBState :=
  { users := [⟨1, "carol", "ab12cd34", 1000⟩],
    artworks := [], transactions := [], settings := [], nextId := 1 }

/-- Witness for the C6 theorem at a concrete legacy login. -/
theorem legacy_login_upgrade_witness :
    (authenticate_user hmd5W genHashW checkHashW exLegacy "carol" "pw").1 =
      some ⟨1, "carol", 1000⟩ ∧
    (∃ u', findUserByName
        (authenticate_user hmd5W genHashW checkHashW exLegacy "carol" "pw").2 "carol"
        = some u' ∧
      u'.password = genHashW "pw" ∧
      u'.password.data.contains ':' = true ∧
      (authenticate_user hmd5W genHashW checkHashW
        (authenticate_user hmd5W genHashW checkHashW exLegacy "carol" "pw").2
        "carol" "pw").1 = some ⟨1, "carol", 1000⟩ ∧
      (authenticate_user hmd5W genHashW checkHashW
        (authenticate_user hmd5W genHashW checkHashW exLegacy "carol" "pw").2
        "carol" "pw").2 =
        (authenticate_user hmd5W genHashW checkHashW exLegacy "carol" "pw").2) :=
  legacy_login_upgrade hmd5W genHashW checkHashW exLegacy "carol" "pw"
    ⟨1, "carol", "ab12cd34", 1000⟩ (by decide) (by decide) (by decide)
    (by decide) (by decide) (by decide)

/-! ## Claims about the URL Safety Classifier -/

/-- C3: for a hostname that is not a literal IP address (and passes the
scheme/hostname/alias checks), `is_safe_url` classifies every resolved
A/AAAA address: if all resolved addresses are public the URL is
Allowed, and if any resolved address is loopback, private, link-local,
unspecified, multicast or reserved — in particular when the answers mix
a public and a private address — the URL is Denied. -/
theorem classify_resolves_all (urlparseF : String → ParsedURL)
    (ipOf : String → Option IPAddr) (resolve : String → List String)
    (url hostname : String)
    (hscheme : (urlparseF url).scheme = "http" ∨ (urlparseF url).scheme = "https")
    (hhost : (urlparseF url).hostname = some hostname)
    (hhne : hostname ≠ "")
    (hl1 : pyLower hostname ≠ "localhost")
    (hl2 : pyLower hostname ≠ "localhost.localdomain")
    (hnotip : ipOf hostname = none) :
    ((∀ a ∈ resolve hostname, ∃ ip, ipOf a = some ip ∧ is_public_ip ip = true) →
      resolve hostname ≠ [] →
      (is_safe_url urlparseF ipOf resolve url).1 = true) ∧
    (∀ a ∈ resolve hostname, ∀ ip, ipOf a = some ip →
      (ip.is_loopback || ip.is_private || ip.is_link_local ||
       ip.is_unspecified || ip.is_multicast || ip.is_reserved) = true →
      (is_safe_url urlparseF ipOf resolve url).1 = false) := by
  have hred : is_safe_url urlparseF ipOf resolve url =
      (if (resolve hostname).isEmpty then (false, "403")
       else if (resolve hostname).all (addrOk ipOf) then
         (true, minAddr (resolve hostname))
       else (false, "403")) := by
    unfold is_safe_url
    rw [if_neg (not_not_intro hscheme), hhost]
    dsimp only
    rw [if_neg hhne, if_neg (not_or.mpr ⟨hl1, hl2⟩), hnotip]
  constructor
  · intro hall hne2
    rw [hred]
    rw [if_neg (by simp [List.isEmpty_iff, hne2])]
    have hok : (resolve hostname).all (addrOk ipOf) = true := by
      rw [List.all_eq_true]
      intro a ha
      obtain ⟨ip, hip, hpub⟩ := hall a ha
      simp [addrOk, hip, hpub]
    rw [if_pos hok]
  · intro a ha ip hip hbad
    rw [hred]
    have hne2 : ¬((resolve hostname).isEmpty = true) := by
      intro h
      rw [List.isEmpty_iff] at h
      rw [h] at ha
      exact absurd ha (List.not_mem_nil a)
    rw [if_neg hne2]
    have hallf : ¬((resolve hostname).all (addrOk ipOf) = true) := by
      intro h
      have := List.all_eq_true.mp h a ha
      simp [addrOk, hip, is_public_ip, hbad] at this
    rw [if_neg hallf]

/-- A public address record for the C3 witness. -/
def pubIP : IPAddr := ⟨"1.2.3.4", false, false, false, false, false, false⟩

/-- A private-range address record for the C3 witness. -/
def privIP : IPAddr := ⟨"10.0.0.1", false, true, false, false, false, false⟩

/-- Concrete urlparse stand-in for the C3 witness. -/
def urlparseW : String → ParsedURL := fun u =>
  if u = "http://good.example/a" then ⟨"http", some "good.example"⟩
  else if u = "http://mixed.example/a" then ⟨"http", some "mixed.example"⟩
  else ⟨"", none⟩

/-- Concrete ip_address stand-in for the C3 witness: hostnames are not
literal addresses, the two resolver answers are. -/
def ipOfW : String → Option IPAddr := fun a =>
  if a = "1.2.3.4" then some pubIP
  else if a = "10.0.0.1" then some privIP
  else none

/-- Concrete resolver for the C3 witness: one host resolves only to a
public address, the other to a public/private mix. -/
def resolveW : String → List String := fun h =>
  if h = "good.example" then ["1.2.3.4"]
  else if h = "mixed.example" then ["1.2.3.4", "10.0.0.1"]
  else []

/-- Witness for the C3 theorem: the all-public host is Allowed, the
mixed public/private host is Denied. -/
theorem classify_resolves_all_witness :
    (is_safe_url urlparseW ipOfW resolveW "http://good.example/a").1 = true ∧
    (is_safe_url urlparseW ipOfW resolveW "http://mixed.example/a").1 = false := by
  constructor
  · refine (classify_resolves_all urlparseW ipOfW resolveW
      "http://good.example/a" "good.example"
      (Or.inl (by decide)) (by decide) (by decide) (by decide) (by decide)
      (by decide)).1 ?_ (by decide)
    intro a ha
    have : a = "1.2.3.4" := by simpa [resolveW] using ha
    subst this
    exact ⟨pubIP, by decide, by decide⟩
  · exact (classify_resolves_all urlparseW ipOfW resolveW
      "http://mixed.example/a" "mixed.example"
      (Or.inl (by decide)) (by decide) (by decide) (by decide) (by decide)
      (by decide)).2 "10.0.0.1" (by decide) privIP (by decide) (by decide)

/-! ## Claims about the Safe-Fetch Gateway / import pipeline -/

/-- C4: for every 3xx response — Location absent, present, or pointing
at a URL that classifies as safe — the import operation ends in an
error outcome (one of the three redirect-refusal messages), never in
success, no preview content is produced, and no artwork is created:
the state is returned unchanged. -/
theorem import_never_follows_redirect (urlparseF : String → ParsedURL)
    (ipOf : String → Option IPAddr) (resolve : String → List String)
    (urljoin : String → String → String) (parseJson : String → Option JsonValue)
    (httpGet : String → Except String HttpResponse)
    (s : DBState) (uid : Nat) (url : String) (r : HttpResponse)
    (hurl : url ≠ "")
    (hsafe : (is_safe_url urlparseF ipOf resolve url).1 = true)
    (hresp : httpGet url = .ok r)
    (h3 : 300 ≤ r.status_code) (h4 : r.status_code < 400) :
    (import_artwork urlparseF ipOf resolve urljoin parseJson httpGet s uid url).2 = s ∧
    (import_artwork urlparseF ipOf resolve urljoin parseJson httpGet s uid url).1.success
      = none ∧
    (import_artwork urlparseF ipOf resolve urljoin parseJson httpGet s uid url).1.preview_content
      = none ∧
    ((import_artwork urlparseF ipOf resolve urljoin parseJson httpGet s uid url).1.error
        = some "Некорректный редирект" ∨
     (import_artwork urlparseF ipOf resolve urljoin parseJson httpGet s uid url).1.error
        = some "Небезопасный редирект" ∨
     (import_artwork urlparseF ipOf resolve urljoin parseJson httpGet s uid url).1.error
        = some "Редиректы запрещены") := by
  unfold import_artwork
  rw [if_neg hurl, if_neg (not_not_intro hsafe), hresp]
  dsimp only
  rw [if_pos ⟨h3, h4⟩]
  by_cases hloc : r.location.getD "" = ""
  · rw [if_pos hloc]
    exact ⟨rfl, rfl, rfl, Or.inl rfl⟩
  · rw [if_neg hloc]
    by_cases hnext :
        (is_safe_url urlparseF ipOf resolve (urljoin url (r.location.getD ""))).1 = true
    · rw [if_neg (not_not_intro hnext)]
      exact ⟨rfl, rfl, rfl, Or.inr (Or.inr rfl)⟩
    · rw [if_pos hnext]
      exact ⟨rfl, rfl, rfl, Or.inr (Or.inl rfl)⟩

/-- Mock transport for the C4 witness: every request answers 302 with a
Location that itself classifies as safe. -/
def httpGet302 : String → Except String HttpResponse := fun _ =>
  .ok ⟨302, some "http://good.example/a", "http://good.example/a", ""⟩

/-- Witness for the C4 theorem: a 302 whose redirect target is safe is
still refused and creates nothing. -/
theorem import_never_follows_redirect_witness :
    (import_artwork urlparseW ipOfW resolveW (fun _ l => l) (fun _ => none)
        httpGet302 exPoor 1 "http://good.example/a").2 = exPoor ∧
    (import_artwork urlparseW ipOfW resolveW (fun _ l => l) (fun _ => none)
        httpGet302 exPoor 1 "http://good.example/a").1.success = none ∧
    (import_artwork urlparseW ipOfW resolveW (fun _ l => l) (fun _ => none)
        httpGet302 exPoor 1 "http://good.example/a").1.preview_content = none ∧
    ((import_artwork urlparseW ipOfW resolveW (fun _ l => l) (fun _ => none)
        httpGet302 exPoor 1 "http://good.example/a").1.error
        = some "Некорректный редирект" ∨
     (import_artwork urlparseW ipOfW resolveW (fun _ l => l) (fun _ => none)
        httpGet302 exPoor 1 "http://good.example/a").1.error
        = some "Небезопасный редирект" ∨
     (import_artwork urlparseW ipOfW resolveW (fun _ l => l) (fun _ => none)
        httpGet302 exPoor 1 "http://good.example/a").1.error
        = some "Редиректы запрещены") :=
  import_never_follows_redirect urlparseW ipOfW resolveW (fun _ l => l)
    (fun _ => none) httpGet302 exPoor 1 "http://good.example/a"
    ⟨302, some "http://good.example/a", "http://good.example/a", ""⟩
    (by decide) (by decide) rfl (by decide) (by decide)

/-- Shape of a successful import: with a safe URL, a 200 response, a
safe final URL and a parsed JSON object containing "shapes", the
pipeline returns the truncated preview and appends exactly one artwork
row built from the payload.  Note `parseJson` is applied to the full
`r.text`, not to the truncated preview. -/
lemma import_ok_shape (urlparseF : String → ParsedURL)
    (ipOf : String → Option IPAddr) (resolve : String → List String)
    (urljoin : String → String → String) (parseJson : String → Option JsonValue)
    (httpGet : String → Except String HttpResponse)
    (s : DBState) (uid : Nat) (url : String) (r : HttpResponse)
    (fields : List (String × JsonValue)) (shapesVal : JsonValue)
    (hurl : url ≠ "")
    (hsafe : (is_safe_url urlparseF ipOf resolve url).1 = true)
    (hresp : httpGet url = .ok r)
    (h200 : r.status_code = 200)
    (hfinal : (is_safe_url urlparseF ipOf resolve r.url).1 = true)
    (hparse : parseJson r.text = some (.obj fields))
    (hshapes : jsonLookup fields "shapes" = some shapesVal) :
    import_artwork urlparseF ipOf resolve urljoin parseJson httpGet s uid url =
      (⟨some (pyTake r.text 10000), none,
        some ("Импортировано! ID: " ++ toString s.nextId), some r.url⟩,
       { s with
         artworks := s.artworks ++
           [⟨s.nextId, titleOf (jsonLookup fields "title"), dumps shapesVal,
             importPrice (jsonLookup fields "price"), uid, 0, "imported"⟩]
         nextId := s.nextId + 1 }) := by
  unfold import_artwork
  rw [if_neg hurl, if_neg (not_not_intro hsafe), hresp]
  dsimp only
  rw [h200]
  rw [if_neg (by omega : ¬(300 ≤ 200 ∧ 200 < 400)),
      if_neg (by simp : ¬(200 ≠ 200)),
      if_neg (not_not_intro hfinal), hparse]
  dsimp only
  rw [hshapes]
  rfl

/-- C7: a successful import whose payload is a JSON object with a
"shapes" key creates exactly one artwork whose content is the
serialized shapes, whose price is the converted digit string (with a
non-digit price forced to the default 100), whose visibility is public
(`is_private = 0`) and whose signature is the fixed "imported" marker;
in particular a payload price of "50" yields price 50. -/
theorem import_creates_marked_artwork (urlparseF : String → ParsedURL)
    (ipOf : String → Option IPAddr) (resolve : String → List String)
    (urljoin : String → String → String) (parseJson : String → Option JsonValue)
    (httpGet : String → Except String HttpResponse)
    (s : DBState) (uid : Nat) (url : String) (r : HttpResponse)
    (fields : List (String × JsonValue)) (shapesVal : JsonValue)
    (hurl : url ≠ "")
    (hsafe : (is_safe_url urlparseF ipOf resolve url).1 = true)
    (hresp : httpGet url = .ok r)
    (h200 : r.status_code = 200)
    (hfinal : (is_safe_url urlparseF ipOf resolve r.url).1 = true)
    (hparse : parseJson r.text = some (.obj fields))
    (hshapes : jsonLookup fields "shapes" = some shapesVal) :
    (import_artwork urlparseF ipOf resolve urljoin parseJson httpGet s uid url).2.artworks
      = s.artworks ++
        [⟨s.nextId, titleOf (jsonLookup fields "title"), dumps shapesVal,
          importPrice (jsonLookup fields "price"), uid, 0, "imported"⟩] ∧
    (import_artwork urlparseF ipOf resolve urljoin parseJson httpGet s uid url).1.success.isSome
      = true ∧
    importPrice (some (.str "50")) = 50 ∧
    (∀ t : String, isDigitStr t = false → importPrice (some (.str t)) = 100) := by
  have h := import_ok_shape urlparseF ipOf resolve urljoin parseJson httpGet
    s uid url r fields shapesVal hurl hsafe hresp h200 hfinal hparse hshapes
  refine ⟨by rw [h], by rw [h]; rfl, by decide, ?_⟩
  intro t ht
  simp [importPrice, ht]

/-- Successful-response body used by the import witnesses. -/
def body50 : String := "\x7b\"shapes\": [], \"title\": \"T\", \"price\": \"50\"\x7d"

/-- Concrete JSON parser stand-in for the import witnesses: parses the
witness body the way Python json does. -/
def parseJson50 : String → Option JsonValue := fun t =>
  if t = body50 then
    some (.obj [("shapes", .arr []), ("title", .str "T"), ("price", .str "50")])
  else none

/-- Mock transport for the import witnesses: always 200 with the
witness body and a safe final URL. -/
def httpGet50 : String → Except String HttpResponse := fun _ =>
  .ok ⟨200, none, "http://good.example/a", body50⟩

/-- Witness for the C7 theorem at a concrete successful import. -/
theorem import_creates_marked_artwork_witness :
    (import_artwork urlparseW ipOfW resolveW (fun _ l => l) parseJson50 httpGet50
        exPoor 1 "http://good.example/a").2.artworks =
      exPoor.artworks ++ [⟨11, "T", "[]", 50, 1, 0, "imported"⟩] ∧
    (import_artwork urlparseW ipOfW resolveW (fun _ l => l) parseJson50 httpGet50
        exPoor 1 "http://good.example/a").1.success.isSome = true ∧
    importPrice (some (.str "50")) = 50 ∧
    (∀ t : String, isDigitStr t = false → importPrice (some (.str t)) = 100) := by
  have h := import_creates_marked_artwork urlparseW ipOfW resolveW (fun _ l => l)
    parseJson50 httpGet50 exPoor 1 "http://good.example/a"
    ⟨200, none, "http://good.example/a", body50⟩
    [("shapes", .arr []), ("title", .str "T"), ("price", .str "50")] (.arr [])
    (by decide) (by decide) rfl rfl (by decide)
    (by show parseJson50 body50 = _
        unfold parseJson50
        rw [if_pos rfl]) rfl
  exact h

/-- C5 (amended): on a successful fetch the preview content returned to
the caller is the body truncated to 10000 characters, while the JSON
payload that becomes the stored artwork is parsed from the full,
untruncated body (`parseJson r.text`). -/
theorem import_preview_truncated (urlparseF : String → ParsedURL)
    (ipOf : String → Option IPAddr) (resolve : String → List String)
    (urljoin : String → String → String) (parseJson : String → Option JsonValue)
    (httpGet : String → Except String HttpResponse)
    (s : DBState) (uid : Nat) (url : String) (r : HttpResponse)
    (fields : List (String × JsonValue)) (shapesVal : JsonValue)
    (hurl : url ≠ "")
    (hsafe : (is_safe_url urlparseF ipOf resolve url).1 = true)
    (hresp : httpGet url = .ok r)
    (h200 : r.status_code = 200)
    (hfinal : (is_safe_url urlparseF ipOf resolve r.url).1 = true)
    (hparse : parseJson r.text = some (.obj fields))
    (hshapes : jsonLookup fields "shapes" = some shapesVal) :
    (import_artwork urlparseF ipOf resolve urljoin parseJson httpGet s uid url).1.preview_content
      = some (pyTake r.text 10000) ∧
    (import_artwork urlparseF ipOf resolve urljoin parseJson httpGet s uid url).2.artworks
      = s.artworks ++
        [⟨s.nextId, titleOf (jsonLookup fields "title"), dumps shapesVal,
          importPrice (jsonLookup fields "price"), uid, 0, "imported"⟩] := by
  have h := import_ok_shape urlparseF ipOf resolve urljoin parseJson httpGet
    s uid url r fields shapesVal hurl hsafe hresp h200 hfinal hparse hshapes
  exact ⟨by rw [h], by rw [h]⟩

/-- Witness for the amended C5 theorem at a concrete successful import. -/
theorem import_preview_truncated_witness :
    (import_artwork urlparseW ipOfW resolveW (fun _ l => l) parseJson50 httpGet50
        exPoor 1 "http://good.example/a").1.preview_content
      = some (pyTake body50 10000) ∧
    (import_artwork urlparseW ipOfW resolveW (fun _ l => l) parseJson50 httpGet50
        exPoor 1 "http://good.example/a").2.artworks =
      exPoor.artworks ++
        [⟨11, titleOf (jsonLookup [("shapes", .arr []), ("title", .str "T"),
            ("price", .str "50")] "title"),
          dumps (.arr []),
          importPrice (jsonLookup [("shapes", .arr []), ("title", .str "T"),
            ("price", .str "50")] "price"), 1, 0, "imported"⟩] := by
  have h := import_preview_truncated urlparseW ipOfW resolveW (fun _ l => l)
    parseJson50 httpGet50 exPoor 1 "http://good.example/a"
    ⟨200, none, "http://good.example/a", body50⟩
    [("shapes", .arr []), ("title", .str "T"), ("price", .str "50")] (.arr [])
    (by decide) (by decide) rfl rfl (by decide)
    (by show parseJson50 body50 = _
        unfold parseJson50
        rw [if_pos rfl]) rfl
  exact h

/-- A 12000-character body payload for the C5 counterexample. -/
def aBig : String := String.mk (List.replicate 12000 'a')

/-- The shapes value of the oversized payload. -/
def bigShapes : JsonValue := .str aBig

/-- The oversized response body (more than 10000 characters). -/
def bigText : String := "\x7b\"shapes\": \"" ++ aBig ++ "\"\x7d"

/-- Concrete JSON parser stand-in for the oversized body. -/
def parseJsonBig : String → Option JsonValue := fun t =>
  if t = bigText then some (.obj [("shapes", bigShapes)]) else none

/-- Mock transport returning the oversized body with status 200. -/
def httpGetBig : String → Except String HttpResponse := fun _ =>
  .ok ⟨200, none, "http://good.example/a", bigText⟩

/-- Escaping leaves a run of letters unchanged. -/
lemma flatMap_escChar_replicate (n : Nat) :
    (List.replicate n 'a').flatMap escChar = List.replicate n 'a' := by
  have ha : escChar 'a' = ['a'] := rfl
  induction n with
  | zero => rfl
  | succ k ih => simp [List.replicate_succ, ha, ih]

/-- C5 counterexample: a successful import of a body longer than 10000
characters parses the untruncated body and stores artwork content of
12002 characters — the content the pipeline consumes and stores is not
capped at 10000. -/
theorem import_truncation_counterexample :
    (import_artwork urlparseW ipOfW resolveW (fun _ l => l) parseJsonBig httpGetBig
        exPoor 1 "http://good.example/a").1.success.isSome = true ∧
    ∃ a ∈ (import_artwork urlparseW ipOfW resolveW (fun _ l => l) parseJsonBig
        httpGetBig exPoor 1 "http://good.example/a").2.artworks,
      10000 < a.data.length := by
  have h := import_ok_shape urlparseW ipOfW resolveW (fun _ l => l) parseJsonBig
    httpGetBig exPoor 1 "http://good.example/a"
    ⟨200, none, "http://good.example/a", bigText⟩
    [("shapes", bigShapes)] bigShapes
    (by decide) (by decide) rfl rfl (by decide)
    (by show parseJsonBig bigText = _
        unfold parseJsonBig
        rw [if_pos rfl]) rfl
  rw [h]
  refine ⟨rfl, ⟨exPoor.nextId, titleOf (jsonLookup [("shapes", bigShapes)] "title"),
    dumps bigShapes, importPrice (jsonLookup [("shapes", bigShapes)] "price"),
    1, 0, "imported"⟩, by simp, ?_⟩
  show 10000 < (dumps bigShapes).length
  have h0 : dumps bigShapes = "\"" ++ escapeStr aBig ++ "\"" := rfl
  have h1 : (escapeStr aBig).length = 12000 := by
    show (String.mk (aBig.data.flatMap escChar)).length = 12000
    rw [show aBig.data = List.replicate 12000 'a' from rfl,
        flatMap_escChar_replicate]
    rw [show (String.mk (List.replicate 12000 'a')).length
        = (List.replicate 12000 'a').length from rfl, List.length_replicate]
  rw [h0, String.length_append, String.length_append, h1]
  rw [show ("\"" : String).length = 1 from rfl]
  omega

/-! ## Claims about the artwork price invariant -/

/-- C9 counterexample: app.py `create_artwork` accepts the form price
"-5" (Python `int` parses it) and stores an artwork with price -5, so
the data-model invariant price ≥ 0 does not hold for every stored
artwork. -/
theorem artwork_price_invariant_counterexample :
    (create_artwork exPoor 1 "T" "D" "-5" "" "" 0).1 = none ∧
    (create_artwork exPoor 1 "T" "D" "-5" "" "" 0).2.artworks =
      exPoor.artworks ++ [⟨11, "T", "D", -5, 1, 0, ""⟩] ∧
    ((-5 : Int) < 0) := by
  refine ⟨rfl, by decide, by decide⟩

/-- Import prices are never negative: a digit string converts to a
natural number, a negative integer's string form starts with a minus
sign and so falls back to the default 100, as does every other shape. -/
lemma importPrice_nonneg (v : Option JsonValue) : 0 ≤ importPrice v := by
  match v with
  | none => decide
  | some .null => decide
  | some (.bool b) => cases b <;> decide
  | some (.arr xs) => simp [importPrice]
  | some (.obj fs) => simp [importPrice]
  | some (.str t) =>
    simp only [importPrice]
    split
    · exact Int.ofNat_nonneg _
    · decide
  | some (.num n) =>
    simp only [importPrice]
    split
    · rename_i h
      cases n with
      | ofNat m => exact Int.ofNat_nonneg m
      | negSucc m =>
        exfalso
        rw [show toString (Int.negSucc m) = "-" ++ Nat.repr (m + 1) from rfl] at h
        have hdata : ("-" ++ Nat.repr (m + 1)).data
            = '-' :: (Nat.repr (m + 1)).data := by
          rw [String.data_append]
          rfl
        rw [isDigitStr, hdata] at h
        simp [List.all_cons] at h
    · decide

/-- C9 (amended): every artwork row appended by the import pipeline has
a non-negative price (the digit-string conversion or the default 100);
the manual create/edit paths, by contrast, store whatever integer the
price field parses to, including negative values. -/
theorem import_artwork_price_nonneg (urlparseF : String → ParsedURL)
    (ipOf : String → Option IPAddr) (resolve : String → List String)
    (urljoin : String → String → String) (parseJson : String → Option JsonValue)
    (httpGet : String → Except String HttpResponse)
    (s : DBState) (uid : Nat) (url : String) :
    ∀ a ∈ (import_artwork urlparseF ipOf resolve urljoin parseJson httpGet
        s uid url).2.artworks,
      a ∈ s.artworks ∨ 0 ≤ a.price := by
  intro a ha
  unfold import_artwork at ha
  dsimp only at ha
  split at ha
  · exact Or.inl ha
  split at ha
  · exact Or.inl ha
  split at ha
  · exact Or.inl ha
  split at ha
  · split at ha
    · exact Or.inl ha
    split at ha
    · exact Or.inl ha
    · exact Or.inl ha
  split at ha
  · exact Or.inl ha
  split at ha
  · exact Or.inl ha
  split at ha
  · exact Or.inl ha
  case _ fields hv =>
    split at ha
    case _ shapesVal hs =>
      have ha' : a ∈ s.artworks ++
          [⟨s.nextId, titleOf (jsonLookup fields "title"), dumps shapesVal,
            importPrice (jsonLookup fields "price"), uid, 0, "imported"⟩] := ha
      rcases List.mem_append.mp ha' with hmem | hmem
      · exact Or.inl hmem
      · have := List.mem_singleton.mp hmem
        subst this
        exact Or.inr (importPrice_nonneg _)
    case _ hs => exact Or.inl ha
  case _ v hv hne => exact Or.inl ha

/-- Witness for the amended C9 theorem: the artwork imported in the C7
scenario is covered by the non-negative-price disjunction. -/
theorem import_artwork_price_nonneg_witness :
    (⟨11, "T", "[]", 50, 1, 0, "imported"⟩ : ArtworkRow) ∈ exPoor.artworks ∨
      (0 : Int) ≤ (⟨11, "T", "[]", 50, 1, 0, "imported"⟩ : ArtworkRow).price :=
  import_artwork_price_nonneg urlparseW ipOfW resolveW (fun _ l => l) parseJson50
    httpGet50 exPoor 1 "http://good.example/a"
    ⟨11, "T", "[]", 50, 1, 0, "imported"⟩ (by decide)

/-! ## Claims about the Settings Codec -/

/-- The encoded settings string is never empty (it is a JSON object,
starting with an opening brace). -/
lemma encodeSettings_ne_empty (f : SettingsForm) : encodeSettings f ≠ "" := by
  intro h
  have hlen : (encodeSettings f).length = 0 := by rw [h]; rfl
  have hform : encodeSettings f = "\x7b" ++ dumpsObj [("colors", .str f.colors),
      ("animation", .bool f.animation), ("public", .bool f.public)] ++ "\x7d" := rfl
  rw [hform, String.length_append, String.length_append,
      show ("\x7b" : String).length = 1 from rfl,
      show ("\x7d" : String).length = 1 from rfl] at hlen
  omega

/-- A Python slice of length n has at most n characters. -/
lemma pyTake_length_le (s : String) (n : Nat) : (pyTake s n).length ≤ n := by
  show (s.data.take n).length ≤ n
  rw [List.length_take]
  exact min_le_left _ _

/-- C8 counterexample: the empty string is not valid JSON
(`json.loads("")` raises), yet `load_artwork_settings` returns the
no-settings value `none` for it rather than a plain-text wrapper. -/
theorem settings_decode_empty_counterexample :
    load_artwork_settings (fun _ => none) "" = none ∧
    load_artwork_settings (fun _ => none) "" ≠
      some (.obj [("description", .str (pyTake "" MAX_DESCRIPTION_LEN))]) := by
  constructor
  · rfl
  · intro h
    rw [show load_artwork_settings (fun _ => none) "" = none from rfl] at h
    exact Option.noConfusion h

/-- C8 (amended): encode-then-decode round-trips for every settings
object written by the save path, given that the JSON library parses
back what it serialized; every NON-EMPTY string that is not valid JSON
decodes to a plain-text wrapper holding the input truncated to the
2000-character cap (the empty string decodes to no settings); and the
decoder is a total function, so it never throws. -/
theorem settings_codec_roundtrip (loads : String → Option JsonValue) :
    (∀ f : SettingsForm, loads (encodeSettings f) = some (settingsJson f) →
      load_artwork_settings loads (encodeSettings f) = some (settingsJson f)) ∧
    (∀ t : String, t ≠ "" → loads t = none →
      load_artwork_settings loads t =
        some (.obj [("description", .str (pyTake t MAX_DESCRIPTION_LEN))]) ∧
      (pyTake t MAX_DESCRIPTION_LEN).length ≤ MAX_DESCRIPTION_LEN) := by
  constructor
  · intro f hl
    unfold load_artwork_settings
    rw [if_neg (encodeSettings_ne_empty f), hl]
    dsimp only
    rw [if_pos (show json_type_ok (settingsJson f) = true from rfl)]
  · intro t ht hn
    refine ⟨?_, pyTake_length_le t MAX_DESCRIPTION_LEN⟩
    unfold load_artwork_settings
    rw [if_neg ht, hn]

/-- Concrete JSON-library stand-in for the C8 witness: parses back the
encoded witness object, fails on everything else. -/
def loadsW : String → Option JsonValue := fun t =>
  if t = encodeSettings ⟨"red", true, false⟩ then
    some (settingsJson ⟨"red", true, false⟩)
  else none

/-- Witness for the amended C8 theorem: a concrete round-trip and a
concrete non-JSON fallback. -/
theorem settings_codec_roundtrip_witness :
    load_artwork_settings loadsW (encodeSettings ⟨"red", true, false⟩) =
      some (settingsJson ⟨"red", true, false⟩) ∧
    load_artwork_settings loadsW "not json" =
      some (.obj [("description", .str (pyTake "not json" MAX_DESCRIPTION_LEN))]) ∧
    (pyTake "not json" MAX_DESCRIPTION_LEN).length ≤ MAX_DESCRIPTION_LEN := by
  refine ⟨(settings_codec_roundtrip loadsW).1 ⟨"red", true, false⟩ ?_,
          ((settings_codec_roundtrip loadsW).2 "not json" (by decide) ?_).1,
          ((settings_codec_roundtrip loadsW).2 "not json" (by decide) ?_).2⟩
  · unfold loadsW
    rw [if_pos rfl]
  · unfold loadsW
    rw [if_neg (by decide)]
  · unfold loadsW
    rw [if_neg (by decide)]

end Rodchenko
